import Mathlib

/-!
Verification development for `plot_speedup.py`, a linear report-generating
script: it loads a run-record CSV (columns `run`, `speedup`, `relative_error`)
and a stats CSV (columns `metric`, `value`), prints a fixed sequence of
statistics to stdout, renders a chart image, and prints further statistics.

The script is embedded as a total function `script` from the two (possibly
missing or column-deficient) input files to the trace of value-bearing stdout
lines together with an error flag (`true` models an uncaught Python exception,
hence process abort with non-zero status).  Real numbers in the data are
modelled as rationals; pandas `NaN` results are modelled as `none`.
-/

namespace PlotSpeedup

/-- Marks whether a printed value was taken from the loaded stats file or
computed from the run-record sequence. -/
inductive Src where
  | loaded
  | derived
deriving DecidableEq, Repr

/-- Python format spec used for a printed number: fixed d is the
fixed-point spec with d decimals, general is the g spec. -/
inductive Fmt where
  | fixed (d : Nat)
  | general
deriving DecidableEq, Repr

/-- One value-bearing stdout line of the script.

* header n — the Statistics from n runs line (line 25).
* value lab src fmt pct v — a labelled number line; when pct is true the
  printed number is v times 100 followed by a percent sign; none models NaN.
* sqrtValue lab src fmt pct v — a standard-deviation line; v is the
  sample variance and the printed number is its square root (none = NaN).
* threshold t count denom pct — a runs-over-threshold line giving count,
  denominator and percentage (lines 122-123); pct is the indicator mean
  times 100.
* plotSaved — the plot-saved message (line 114).
* sectionHeader s — a section title line. -/
inductive Line where
  | header (n : Int)
  | value (lab : String) (src : Src) (fmt : Fmt) (pct : Bool) (v : Option ℚ)
  | sqrtValue (lab : String) (src : Src) (fmt : Fmt) (pct : Bool) (v : Option ℚ)
  | threshold (t : ℚ) (count : Nat) (denom : Int) (pct : Option ℚ)
  | plotSaved
  | sectionHeader (s : String)
deriving DecidableEq, Repr

/-- The run-record CSV, speedup_results.csv, as loaded by read_csv:
each column is none when absent from the file (accessing it raises a
KeyError at the line of first use, not at load time). -/
structure RunTable where
  run : Option (List Int)
  speedup : Option (List ℚ)
  relative_error : Option (List ℚ)
deriving DecidableEq, Repr

/-- The stats CSV, speedup_stats.csv: hasCols is whether both the metric
and value columns are present (their absence raises a KeyError at line 16);
rows are the (metric, value) rows in file order. -/
structure StatsTable where
  hasCols : Bool
  rows : List (String × ℚ)
deriving DecidableEq, Repr

/-- Builds the stats dict of line 16, dict of zip of the metric and value
columns: later rows overwrite earlier ones with the same key. -/
def buildDict (rows : List (String × ℚ)) : String → Option ℚ :=
  rows.foldl (fun d p => fun k => if k = p.1 then some p.2 else d k)
    (fun _ => none)

/-- Python int conversion applied to a real value: truncation toward zero
(line 23, int applied to the num_runs entry of the stats dict). -/
def intTrunc (q : ℚ) : Int :=
  if 0 ≤ q then ⌊q⌋ else ⌈q⌉

/-- The seven scalar values extracted from the stats dict (lines 17-23). -/
structure StatsVals where
  avg_speedup : ℚ
  min_speedup : ℚ
  max_speedup : ℚ
  avg_error : ℚ
  min_error : ℚ
  max_error : ℚ
  num_runs : Int
deriving DecidableEq, Repr

/-- Lines 17-23: the seven dict lookups; any missing key raises `KeyError`
before anything is printed. -/
def extractStats (rows : List (String × ℚ)) : Option StatsVals := do
  let a ← buildDict rows ("avg_speedup")
  let b ← buildDict rows ("min_speedup")
  let c ← buildDict rows ("max_speedup")
  let d ← buildDict rows ("avg_error")
  let e ← buildDict rows ("min_error")
  let f ← buildDict rows ("max_error")
  let n ← buildDict rows ("num_runs")
  pure ⟨a, b, c, d, e, f, intTrunc n⟩

/-- Arithmetic mean with junk value `0` on the empty list (used only where
nonemptiness is otherwise known). -/
def mu (l : List ℚ) : ℚ := l.sum / l.length

/-- Embeds the pandas series mean: NaN (none) on an empty series. -/
def meanQ (l : List ℚ) : Option ℚ :=
  if l.isEmpty then none else some (l.sum / l.length)

/-- Sum of squared deviations from the mean (the numerator of the sample
variance, and a building block of the Pearson correlation). -/
def sxx (l : List ℚ) : ℚ := (l.map (fun x => (x - mu l) ^ 2)).sum

/-- Sum of products of deviations of two zipped columns. -/
def sxy (xs ys : List ℚ) : ℚ :=
  ((xs.zip ys).map (fun p => (p.1 - mu xs) * (p.2 - mu ys))).sum

/-- Embeds the pandas series std with the default ddof of 1, up to the
final square root: the sample variance; NaN (none) on a series of length
at most 1, where n - 1 vanishes. -/
def sampleVarQ (l : List ℚ) : Option ℚ :=
  if l.length ≤ 1 then none
  else some (sxx l / ((l.length : ℚ) - 1))

/-- The standard deviation itself: the square root of the sample variance,
NaN (`none`) exactly when the variance is NaN. -/
noncomputable def stdR (l : List ℚ) : Option ℝ :=
  (sampleVarQ l).map (fun v => Real.sqrt (v : ℚ))

/-- Embeds the pandas Pearson correlation: sum of co-deviations over the
product of the root sums of squared deviations. -/
noncomputable def corr (xs ys : List ℚ) : ℝ :=
  (sxy xs ys : ℝ) / (Real.sqrt (sxx xs : ℚ) * Real.sqrt (sxx ys : ℚ))

/-- The column in ascending order. -/
def sortQ (l : List ℚ) : List ℚ := l.insertionSort (· ≤ ·)

/-- Embeds the pandas quantile with the default linear interpolation:
position h = q (n-1), interpolated between the two neighbouring order
statistics; NaN (none) on an empty series. -/
def quantileQ (l : List ℚ) (q : ℚ) : Option ℚ :=
  if l.isEmpty then none
  else
    let s := sortQ l
    let n := s.length
    let h : ℚ := q * ((n : ℚ) - 1)
    let lo : Nat := (⌊h⌋).toNat
    let g : ℚ := h - (lo : ℚ)
    let a := s.getD lo 0
    let b := s.getD (min (lo + 1) (n - 1)) 0
    some (a + g * (b - a))

/-- Embeds the pandas median: the 0.5 quantile with linear interpolation. -/
def medianQ (l : List ℚ) : Option ℚ := quantileQ l (1 / 2)

/-- Embeds the sum of the boolean series comparing each entry against t:
the number of entries strictly above t. -/
def countGT (l : List ℚ) (t : ℚ) : Nat :=
  (l.filter (fun x => decide (t < x))).length

/-- The elementwise boolean comparison series as a 0/1 series (its mean is
the fraction of entries above t). -/
def indicator (l : List ℚ) (t : ℚ) : List ℚ :=
  l.map (fun x => if t < x then 1 else 0)

/-- The whole script: from the two input files to the trace of value-bearing
stdout lines and the error flag (`true` = uncaught exception, non-zero exit).
Mirrors the source line by line: loads (12-13), dict extraction (16-23),
first print block (25-33), plotting and save (36-114), additional statistics
(118-127).  A missing run-file column fails at its first access: `speedup`
at line 29, `relative_error` at line 33, `run` at line 40. -/
def script (rf : Option RunTable) (sf : Option StatsTable) :
    List Line × Bool :=
  match rf with
  | none => ([], true)
  | some rt =>
    match sf with
    | none => ([], true)
    | some st =>
      if st.hasCols then
        match extractStats st.rows with
        | none => ([], true)
        | some sv =>
          let block1 : List Line :=
            [.header sv.num_runs,
             .value ("Average speedup") .loaded (.fixed 4) false
               (some sv.avg_speedup),
             .value ("Minimum speedup") .loaded (.fixed 4) false
               (some sv.min_speedup),
             .value ("Maximum speedup") .loaded (.fixed 4) false
               (some sv.max_speedup)]
          match rt.speedup with
          | none => (block1, true)
          | some sCol =>
            let block2 : List Line := block1 ++
              [.sqrtValue ("Standard deviation speedup") .derived (.fixed 4)
                 false (sampleVarQ sCol),
               .value ("Average relative error") .loaded .general false
                 (some sv.avg_error),
               .value ("Minimum relative error") .loaded .general false
                 (some sv.min_error),
               .value ("Maximum relative error") .loaded .general false
                 (some sv.max_error)]
            match rt.relative_error with
            | none => (block2, true)
            | some eCol =>
              let block3 : List Line := block2 ++
                [.sqrtValue ("Standard deviation error") .derived .general
                   false (sampleVarQ eCol)]
              match rt.run with
              | none => (block3, true)
              | some _ =>
                let rest : List Line :=
                  [.plotSaved,
                   .sectionHeader ("Additional Statistics"),
                   .value ("Median speedup") .derived (.fixed 4) false
                     (medianQ sCol),
                   .value ("25th percentile speedup") .derived (.fixed 4)
                     false (quantileQ sCol (1 / 4)),
                   .value ("75th percentile speedup") .derived (.fixed 4)
                     false (quantileQ sCol (3 / 4)),
                   .threshold 1 (countGT sCol 1) sv.num_runs
                     ((meanQ (indicator sCol 1)).map (fun m => m * 100)),
                   .threshold (3 / 2) (countGT sCol (3 / 2)) sv.num_runs
                     ((meanQ (indicator sCol (3 / 2))).map (fun m => m * 100)),
                   .sectionHeader ("Error Statistics"),
                   .value ("Median relative error") .derived (.fixed 6) true
                     (medianQ eCol),
                   .value ("25th percentile error") .derived (.fixed 6) true
                     (quantileQ eCol (1 / 4)),
                   .value ("75th percentile error") .derived (.fixed 6) true
                     (quantileQ eCol (3 / 4))]
                (block3 ++ rest, false)
      else ([], true)

/-- The denominators of the runs-over-threshold lines, in order. -/
def denomsOf (ls : List Line) : List Int :=
  ls.filterMap (fun l =>
    match l with
    | .threshold _ _ d _ => some d
    | _ => none)

/-- The run counts shown in the header lines, in order. -/
def headersOf (ls : List Line) : List Int :=
  ls.filterMap (fun l =>
    match l with
    | .header n => some n
    | _ => none)

/-- The source (loaded vs derived) of each statistic-bearing line, in print
order: the header count is loaded, threshold counts are derived. -/
def srcsOf (ls : List Line) : List Src :=
  ls.filterMap (fun l =>
    match l with
    | .header _ => some .loaded
    | .value _ s _ _ _ => some s
    | .sqrtValue _ s _ _ _ => some s
    | .threshold _ _ _ _ => some .derived
    | _ => none)

/-- Tests whether every loaded line precedes every derived line. -/
def loadedFirst (l : List Src) : Bool :=
  (l.dropWhile (fun s => s == Src.loaded)).all (fun s => s == Src.derived)

/-- The format and percent flag of the first line with the given label. -/
def fmtOfLabel (ls : List Line) (lab : String) : Option (Fmt × Bool) :=
  ls.findSome? (fun l =>
    match l with
    | .value lab2 _ f p _ => if lab2 = lab then some (f, p) else none
    | .sqrtValue lab2 _ f p _ => if lab2 = lab then some (f, p) else none
    | _ => none)

/-- The seven error-like fractions of the printed report. -/
def errorLabels : List String :=
  [("Average relative error"), ("Minimum relative error"),
   ("Maximum relative error"), ("Standard deviation error"),
   ("Median relative error"), ("25th percentile error"),
   ("75th percentile error")]

/-- The seven speedup-like ratios of the printed report. -/
def speedupLabels : List String :=
  [("Average speedup"), ("Minimum speedup"), ("Maximum speedup"),
   ("Standard deviation speedup"), ("Median speedup"),
   ("25th percentile speedup"), ("75th percentile speedup")]

/-- Tests whether a format is a percentage with 4 to 6 decimal places. -/
def isPct4to6 (fp : Option (Fmt × Bool)) : Bool :=
  match fp with
  | some (.fixed d, true) => decide (4 ≤ d) && decide (d ≤ 6)
  | _ => false

/-- Tests whether a format is a plain 4-decimal fixed-point number. -/
def isFixed4 (fp : Option (Fmt × Bool)) : Bool :=
  match fp with
  | some (.fixed 4, false) => true
  | _ => false

/-- The formatting property asserted of the whole report: every error-like
fraction printed as a percentage with 4-6 decimals, every speedup-like
ratio with 4 decimals. -/
def claimedFmtOK (ls : List Line) : Bool :=
  errorLabels.all (fun lab => isPct4to6 (fmtOfLabel ls lab)) &&
  speedupLabels.all (fun lab => isFixed4 (fmtOfLabel ls lab))

end PlotSpeedup

namespace PlotSpeedup

/-- The seven metric names the script looks up in the stats dict. -/
def requiredMetrics : List String :=
  [("avg_speedup"), ("min_speedup"), ("max_speedup"), ("avg_error"),
   ("min_error"), ("max_error"), ("num_runs")]

/-- Speedup column of the five-row end-to-end scenario. -/
def c1Speedup : List ℚ := [9/10, 1, 11/10, 6/5, 2]

/-- Relative-error column of the five-row end-to-end scenario. -/
def c1Error : List ℚ := [1/100, 1/50, 1/100, 3/100, 1/20]

/-- Run-record file of the five-row end-to-end scenario. -/
def c1Run : RunTable := ⟨some [1, 2, 3, 4, 5], some c1Speedup, some c1Error⟩

/-- Stats file of the five-row end-to-end scenario. -/
def c1Stats : StatsTable :=
  ⟨true, [("avg_speedup", 31/25), ("min_speedup", 9/10), ("max_speedup", 2),
          ("avg_error", 3/125), ("min_error", 1/100), ("max_error", 1/20),
          ("num_runs", 5)]⟩

/-- The stats extraction of the end-to-end scenario evaluates to the seven
loaded values. -/
theorem c1_extract : extractStats c1Stats.rows =
    some ⟨31/25, 9/10, 2, 3/125, 1/100, 1/20, 5⟩ := by
  simp [extractStats, buildDict, c1Stats, intTrunc]

/-- The full stdout trace of the end-to-end scenario. -/
theorem c1_trace : script (some c1Run) (some c1Stats) =
    ([.header 5,
      .value ("Average speedup") .loaded (.fixed 4) false (some (31/25)),
      .value ("Minimum speedup") .loaded (.fixed 4) false (some (9/10)),
      .value ("Maximum speedup") .loaded (.fixed 4) false (some 2),
      .sqrtValue ("Standard deviation speedup") .derived (.fixed 4) false
        (some (193/1000)),
      .value ("Average relative error") .loaded .general false (some (3/125)),
      .value ("Minimum relative error") .loaded .general false (some (1/100)),
      .value ("Maximum relative error") .loaded .general false (some (1/20)),
      .sqrtValue ("Standard deviation error") .derived .general false
        (some (7/25000)),
      .plotSaved,
      .sectionHeader ("Additional Statistics"),
      .value ("Median speedup") .derived (.fixed 4) false (some (11/10)),
      .value ("25th percentile speedup") .derived (.fixed 4) false (some 1),
      .value ("75th percentile speedup") .derived (.fixed 4) false
        (some (6/5)),
      .threshold 1 3 5 (some 60),
      .threshold (3/2) 1 5 (some 20),
      .sectionHeader ("Error Statistics"),
      .value ("Median relative error") .derived (.fixed 6) true (some (1/50)),
      .value ("25th percentile error") .derived (.fixed 6) true
        (some (1/100)),
      .value ("75th percentile error") .derived (.fixed 6) true
        (some (3/100))],
     false) := by
  rw [script.eq_def]
  simp only [c1_extract, c1Run, show c1Stats.hasCols = true from rfl]
  norm_num [c1Speedup, c1Error, sampleVarQ, sxx, mu, medianQ, quantileQ,
    sortQ, List.orderedInsert, Int.toNat, countGT, meanQ, indicator]

/-- Claim C1: on the 5-row scenario with speedups 0.9, 1.0, 1.1, 1.2, 2.0,
errors 0.01, 0.02, 0.01, 0.03, 0.05 and loaded stats avg 1.24, min 0.9,
max 2.0, num_runs 5, the computed median speedup is 1.1 and the count of
runs with speedup strictly above 1.0 is 3 of 5, printed as 60.0 percent:
the trace carries the median line with value 1.1 and the threshold line
with count 3, denominator 5 and percentage 60, and the run completes
without error. -/
theorem c1_end_to_end :
    medianQ c1Speedup = some (11/10) ∧
    countGT c1Speedup 1 = 3 ∧
    c1Speedup.length = 5 ∧
    (meanQ (indicator c1Speedup 1)).map (fun m => m * 100) = some 60 ∧
    (script (some c1Run) (some c1Stats)).2 = false ∧
    (script (some c1Run) (some c1Stats)).1.get? 11 =
      some (.value ("Median speedup") .derived (.fixed 4) false
        (some (11/10))) ∧
    (script (some c1Run) (some c1Stats)).1.get? 14 =
      some (.threshold 1 3 5 (some 60)) := by
  refine ⟨?_, ?_, rfl, ?_, ?_, ?_, ?_⟩
  · norm_num [medianQ, quantileQ, sortQ, List.orderedInsert, Int.toNat,
      c1Speedup]
  · norm_num [countGT, c1Speedup]
  · norm_num [meanQ, indicator, c1Speedup]
  · rw [c1_trace]
  · rw [c1_trace]
    rfl
  · rw [c1_trace]
    rfl

/-- Claim C7: for a run-record sequence of length exactly 1, the standard
deviation (sample variance with ddof 1, then square root) is the NaN
sentinel, deterministically, with no division error: both the variance and
the standard deviation are none. -/
theorem c7_std_single (l : List ℚ) (h : l.length = 1) :
    stdR l = none ∧ sampleVarQ l = none := by
  have hv : sampleVarQ l = none := by simp [sampleVarQ, h]
  exact ⟨by simp [stdR, hv], hv⟩

/-- Witness for claim C7 at the singleton column with value 2. -/
theorem c7_std_single_witness :
    [(2 : ℚ)].length = 1 ∧ (stdR [(2 : ℚ)] = none ∧
      sampleVarQ [(2 : ℚ)] = none) :=
  ⟨rfl, c7_std_single [(2 : ℚ)] rfl⟩

/-- Appending one row to the stats file shadows earlier rows with the same
key and leaves other lookups unchanged. -/
theorem buildDict_append (rows : List (String × ℚ)) (k : String) (v : ℚ)
    (x : String) :
    buildDict (rows ++ [(k, v)]) x =
      if x = k then some v else buildDict rows x := by
  simp [buildDict, List.foldl_append]

/-- Claim C10: the stats mapping is a dict built by zipping metric and
value columns: a duplicate metric name takes its value from the last
occurrence, and a trailing row whose metric is not among the seven
required ones leaves the extracted stats unchanged. -/
theorem c10_dict_semantics (rows : List (String × ℚ)) (k1 k2 : String)
    (v1 v2 : ℚ) (h : k2 ∉ requiredMetrics) :
    buildDict (rows ++ [(k1, v1)]) k1 = some v1 ∧
    extractStats (rows ++ [(k2, v2)]) = extractStats rows := by
  have hne : ∀ x ∈ requiredMetrics, ¬(x = k2) := by
    intro x hx he
    exact h (he ▸ hx)
  refine ⟨by simp [buildDict_append], ?_⟩
  have h1 : ¬(("avg_speedup" : String) = k2) :=
    hne _ (by simp [requiredMetrics])
  have h2 : ¬(("min_speedup" : String) = k2) :=
    hne _ (by simp [requiredMetrics])
  have h3 : ¬(("max_speedup" : String) = k2) :=
    hne _ (by simp [requiredMetrics])
  have h4 : ¬(("avg_error" : String) = k2) :=
    hne _ (by simp [requiredMetrics])
  have h5 : ¬(("min_error" : String) = k2) :=
    hne _ (by simp [requiredMetrics])
  have h6 : ¬(("max_error" : String) = k2) :=
    hne _ (by simp [requiredMetrics])
  have h7 : ¬(("num_runs" : String) = k2) :=
    hne _ (by simp [requiredMetrics])
  simp only [extractStats, buildDict_append, if_neg h1, if_neg h2, if_neg h3,
    if_neg h4, if_neg h5, if_neg h6, if_neg h7]

/-- Witness for claim C10: a duplicated num_runs row where the last value 7
wins, and an extra metric row that the extraction ignores. -/
theorem c10_dict_semantics_witness :
    (("extra_metric" : String) ∉ requiredMetrics) ∧
    (buildDict ([(("num_runs" : String), (2 : ℚ))] ++
        [(("num_runs" : String), (7 : ℚ))]) ("num_runs") = some 7 ∧
      extractStats ([(("num_runs" : String), (2 : ℚ))] ++
        [(("extra_metric" : String), (9 : ℚ))]) =
        extractStats [(("num_runs" : String), (2 : ℚ))]) :=
  ⟨by decide,
   c10_dict_semantics [(("num_runs" : String), (2 : ℚ))] ("num_runs")
     ("extra_metric") 7 9 (by decide)⟩


/-- The stdout trace of the script on a pair of fully well-formed input
files, as a function of the loaded stats values and the two data columns:
the run completes without error. -/
theorem script_complete_eq (rCol : List Int) (sCol eCol : List ℚ)
    (rows : List (String × ℚ)) (sv : StatsVals)
    (hext : extractStats rows = some sv) :
    script (some ⟨some rCol, some sCol, some eCol⟩) (some ⟨true, rows⟩) =
    ([.header sv.num_runs,
      .value ("Average speedup") .loaded (.fixed 4) false
        (some sv.avg_speedup),
      .value ("Minimum speedup") .loaded (.fixed 4) false
        (some sv.min_speedup),
      .value ("Maximum speedup") .loaded (.fixed 4) false
        (some sv.max_speedup),
      .sqrtValue ("Standard deviation speedup") .derived (.fixed 4) false
        (sampleVarQ sCol),
      .value ("Average relative error") .loaded .general false
        (some sv.avg_error),
      .value ("Minimum relative error") .loaded .general false
        (some sv.min_error),
      .value ("Maximum relative error") .loaded .general false
        (some sv.max_error),
      .sqrtValue ("Standard deviation error") .derived .general false
        (sampleVarQ eCol),
      .plotSaved,
      .sectionHeader ("Additional Statistics"),
      .value ("Median speedup") .derived (.fixed 4) false (medianQ sCol),
      .value ("25th percentile speedup") .derived (.fixed 4) false
        (quantileQ sCol (1/4)),
      .value ("75th percentile speedup") .derived (.fixed 4) false
        (quantileQ sCol (3/4)),
      .threshold 1 (countGT sCol 1) sv.num_runs
        ((meanQ (indicator sCol 1)).map (fun m => m * 100)),
      .threshold (3/2) (countGT sCol (3/2)) sv.num_runs
        ((meanQ (indicator sCol (3/2))).map (fun m => m * 100)),
      .sectionHeader ("Error Statistics"),
      .value ("Median relative error") .derived (.fixed 6) true
        (medianQ eCol),
      .value ("25th percentile error") .derived (.fixed 6) true
        (quantileQ eCol (1/4)),
      .value ("75th percentile error") .derived (.fixed 6) true
        (quantileQ eCol (3/4))],
     false) := by
  rw [script.eq_def]
  simp only [hext, if_true, List.append_assoc, List.cons_append,
    List.nil_append]


/-- Claim C2: the script never checks the loaded num_runs against the
actual number of run records: on well-formed inputs whose speedup column
length differs from the loaded num_runs, the run completes without error,
the header count and both runs-over-threshold denominators are the loaded
num_runs, and none of the printed denominators is the actual row count. -/
theorem c2_no_cross_validation (rCol : List Int) (sCol eCol : List ℚ)
    (rows : List (String × ℚ)) (sv : StatsVals)
    (hext : extractStats rows = some sv)
    (hmis : (sCol.length : Int) ≠ sv.num_runs) :
    (script (some ⟨some rCol, some sCol, some eCol⟩)
      (some ⟨true, rows⟩)).2 = false ∧
    headersOf (script (some ⟨some rCol, some sCol, some eCol⟩)
      (some ⟨true, rows⟩)).1 = [sv.num_runs] ∧
    denomsOf (script (some ⟨some rCol, some sCol, some eCol⟩)
      (some ⟨true, rows⟩)).1 = [sv.num_runs, sv.num_runs] ∧
    ∀ d ∈ denomsOf (script (some ⟨some rCol, some sCol, some eCol⟩)
      (some ⟨true, rows⟩)).1, d ≠ (sCol.length : Int) := by
  rw [script_complete_eq rCol sCol eCol rows sv hext]
  refine ⟨rfl, by simp [headersOf], by simp [denomsOf], ?_⟩
  intro d hd
  simp [denomsOf] at hd
  omega

/-- Witness for claim C2: one run record but loaded num_runs 5; the run
succeeds and every printed count denominator is 5, not 1. -/
theorem c2_no_cross_validation_witness :
    ((([(2 : ℚ)] : List ℚ).length : Int) ≠ (5 : Int)) ∧
    ((script (some ⟨some [1], some [(2 : ℚ)], some [(0 : ℚ)]⟩)
      (some ⟨true, c1Stats.rows⟩)).2 = false ∧
    headersOf (script (some ⟨some [1], some [(2 : ℚ)], some [(0 : ℚ)]⟩)
      (some ⟨true, c1Stats.rows⟩)).1 = [5] ∧
    denomsOf (script (some ⟨some [1], some [(2 : ℚ)], some [(0 : ℚ)]⟩)
      (some ⟨true, c1Stats.rows⟩)).1 = [5, 5] ∧
    ∀ d ∈ denomsOf (script (some ⟨some [1], some [(2 : ℚ)], some [(0 : ℚ)]⟩)
      (some ⟨true, c1Stats.rows⟩)).1, d ≠ (1 : Int)) :=
  ⟨by decide,
   c2_no_cross_validation [1] [(2 : ℚ)] [(0 : ℚ)] c1Stats.rows
     ⟨31/25, 9/10, 2, 3/125, 1/100, 1/20, 5⟩ c1_extract (by decide)⟩

/-- Claim C9: the loaded num_runs value is converted with a truncating int
conversion: when the stats file carries a non-integral num_runs value q,
the run completes without error and every printed run count (header and
threshold denominators) is q truncated toward zero, an integer whose
absolute value is the floor of the absolute value of q and which differs
from q. -/
theorem c9_num_runs_truncation (rCol : List Int) (sCol eCol : List ℚ)
    (rows : List (String × ℚ)) (sv : StatsVals) (q : ℚ)
    (hext : extractStats rows = some sv)
    (hn : buildDict rows ("num_runs") = some q)
    (hq : q.den ≠ 1) :
    (script (some ⟨some rCol, some sCol, some eCol⟩)
      (some ⟨true, rows⟩)).2 = false ∧
    headersOf (script (some ⟨some rCol, some sCol, some eCol⟩)
      (some ⟨true, rows⟩)).1 = [intTrunc q] ∧
    denomsOf (script (some ⟨some rCol, some sCol, some eCol⟩)
      (some ⟨true, rows⟩)).1 = [intTrunc q, intTrunc q] ∧
    |intTrunc q| = ⌊|q|⌋ ∧ ((intTrunc q : ℚ) ≠ q) := by
  have hnum : sv.num_runs = intTrunc q := by
    simp only [extractStats, Option.bind_eq_bind] at hext
    rcases Option.bind_eq_some.mp hext with ⟨a, _, h2⟩
    rcases Option.bind_eq_some.mp h2 with ⟨b, _, h3⟩
    rcases Option.bind_eq_some.mp h3 with ⟨c, _, h4⟩
    rcases Option.bind_eq_some.mp h4 with ⟨d, _, h5⟩
    rcases Option.bind_eq_some.mp h5 with ⟨e, _, h6⟩
    rcases Option.bind_eq_some.mp h6 with ⟨f, _, h7⟩
    rcases Option.bind_eq_some.mp h7 with ⟨n, hn2, h8⟩
    rw [hn] at hn2
    cases hn2
    cases h8
    rfl
  rw [script_complete_eq rCol sCol eCol rows sv hext]
  refine ⟨rfl, by simp [headersOf, hnum], by simp [denomsOf, hnum],
    ?_, ?_⟩
  · rw [intTrunc]
    rcases le_or_lt 0 q with h | h
    · rw [if_pos h, abs_of_nonneg (Int.floor_nonneg.mpr h), abs_of_nonneg h]
    · have hc : ⌈q⌉ ≤ 0 := Int.ceil_le.mpr (by exact_mod_cast h.le)
      rw [if_neg (not_le.mpr h), abs_of_nonpos hc, abs_of_neg h,
        Int.floor_neg]
  · intro he
    apply hq
    rw [← he]
    exact Rat.den_intCast (intTrunc q)

/-- Witness for claim C9 at num_runs 5.7: every printed run count is 5. -/
theorem c9_num_runs_truncation_witness :
    (((57 : ℚ)/10).den ≠ 1) ∧
    ((script (some ⟨some [1], some [(2 : ℚ)], some [(0 : ℚ)]⟩)
      (some ⟨true, [(("avg_speedup" : String), (1 : ℚ)),
        (("min_speedup" : String), (1 : ℚ)),
        (("max_speedup" : String), (1 : ℚ)),
        (("avg_error" : String), (0 : ℚ)), (("min_error" : String), (0 : ℚ)),
        (("max_error" : String), (0 : ℚ)),
        (("num_runs" : String), (57 : ℚ)/10)]⟩)).2 = false ∧
    headersOf (script (some ⟨some [1], some [(2 : ℚ)], some [(0 : ℚ)]⟩)
      (some ⟨true, [(("avg_speedup" : String), (1 : ℚ)),
        (("min_speedup" : String), (1 : ℚ)),
        (("max_speedup" : String), (1 : ℚ)),
        (("avg_error" : String), (0 : ℚ)), (("min_error" : String), (0 : ℚ)),
        (("max_error" : String), (0 : ℚ)),
        (("num_runs" : String), (57 : ℚ)/10)]⟩)).1 =
      [intTrunc ((57 : ℚ)/10)] ∧
    denomsOf (script (some ⟨some [1], some [(2 : ℚ)], some [(0 : ℚ)]⟩)
      (some ⟨true, [(("avg_speedup" : String), (1 : ℚ)),
        (("min_speedup" : String), (1 : ℚ)),
        (("max_speedup" : String), (1 : ℚ)),
        (("avg_error" : String), (0 : ℚ)), (("min_error" : String), (0 : ℚ)),
        (("max_error" : String), (0 : ℚ)),
        (("num_runs" : String), (57 : ℚ)/10)]⟩)).1 =
      [intTrunc ((57 : ℚ)/10), intTrunc ((57 : ℚ)/10)] ∧
    |intTrunc ((57 : ℚ)/10)| = ⌊|(57 : ℚ)/10|⌋ ∧
    ((intTrunc ((57 : ℚ)/10) : ℚ) ≠ (57 : ℚ)/10) ∧
    intTrunc ((57 : ℚ)/10) = 5) := by
  refine ⟨by norm_num, ?_⟩
  have h := c9_num_runs_truncation [1] [(2 : ℚ)] [(0 : ℚ)]
    [(("avg_speedup" : String), (1 : ℚ)), (("min_speedup" : String), (1 : ℚ)),
     (("max_speedup" : String), (1 : ℚ)), (("avg_error" : String), (0 : ℚ)),
     (("min_error" : String), (0 : ℚ)), (("max_error" : String), (0 : ℚ)),
     (("num_runs" : String), (57 : ℚ)/10)]
    ⟨1, 1, 1, 0, 0, 0, intTrunc ((57 : ℚ)/10)⟩ ((57 : ℚ)/10)
    (by simp [extractStats, buildDict]) (by simp [buildDict]) (by norm_num)
  refine ⟨h.1, h.2.1, h.2.2.1, h.2.2.2.1, h.2.2.2.2, ?_⟩
  rw [intTrunc, if_pos (by norm_num : (0 : ℚ) ≤ 57/10), Int.floor_eq_iff]
  norm_num


/-- Counterexample to claim C3 as stated: on the end-to-end scenario the
report is not all loaded values followed by all derived statistics — the
derived standard-deviation lines are printed inside the first block,
before the loaded error values. -/
theorem c3_report_order_counterexample :
    loadedFirst (srcsOf (script (some c1Run) (some c1Stats)).1) = false := by
  rw [c1_trace]
  rfl

/-- Claim C3 amended: the report is printed in a fixed input-independent
sequence, but the two derived standard deviations are interleaved into the
first block: header and avg/min/max speedup (loaded), derived std speedup,
avg/min/max error (loaded), derived std error, then the wholly derived
additional statistics (medians, percentiles, threshold counts, error
percentiles). -/
theorem c3_report_order_amended (rCol : List Int) (sCol eCol : List ℚ)
    (rows : List (String × ℚ)) (sv : StatsVals)
    (hext : extractStats rows = some sv) :
    srcsOf (script (some ⟨some rCol, some sCol, some eCol⟩)
      (some ⟨true, rows⟩)).1 =
    [.loaded, .loaded, .loaded, .loaded, .derived, .loaded, .loaded,
     .loaded, .derived, .derived, .derived, .derived, .derived, .derived,
     .derived, .derived, .derived] := by
  rw [script_complete_eq rCol sCol eCol rows sv hext]
  simp [srcsOf]

/-- Witness for amended claim C3 at the end-to-end scenario inputs. -/
theorem c3_report_order_amended_witness :
    extractStats c1Stats.rows = some ⟨31/25, 9/10, 2, 3/125, 1/100, 1/20, 5⟩ ∧
    srcsOf (script (some ⟨some [1, 2, 3, 4, 5], some c1Speedup,
      some c1Error⟩) (some ⟨true, c1Stats.rows⟩)).1 =
    [.loaded, .loaded, .loaded, .loaded, .derived, .loaded, .loaded,
     .loaded, .derived, .derived, .derived, .derived, .derived, .derived,
     .derived, .derived, .derived] :=
  ⟨c1_extract,
   c3_report_order_amended [1, 2, 3, 4, 5] c1Speedup c1Error c1Stats.rows
     ⟨31/25, 9/10, 2, 3/125, 1/100, 1/20, 5⟩ c1_extract⟩

/-- Counterexample to claim C4 as stated: on the end-to-end scenario not
every error-like fraction is printed as a percentage with 4 to 6 decimals
— the average/minimum/maximum/standard-deviation error lines use the raw
general format on the raw fraction. -/
theorem c4_formats_counterexample :
    claimedFmtOK (script (some c1Run) (some c1Stats)).1 = false := by
  rw [c1_trace]
  rfl

/-- Claim C4 amended: among the error-like fractions only the median, 25th
and 75th percentile lines are percentages with 6 decimals; the average,
minimum, maximum and standard deviation of relative error are printed as
raw fractions in general format; every speedup-like ratio is printed with
4 decimal places. -/
theorem c4_formats_amended (rCol : List Int) (sCol eCol : List ℚ)
    (rows : List (String × ℚ)) (sv : StatsVals)
    (hext : extractStats rows = some sv) :
    errorLabels.map (fun lab => fmtOfLabel (script
      (some ⟨some rCol, some sCol, some eCol⟩)
      (some ⟨true, rows⟩)).1 lab) =
      [some (.general, false), some (.general, false),
       some (.general, false), some (.general, false),
       some (.fixed 6, true), some (.fixed 6, true),
       some (.fixed 6, true)] ∧
    speedupLabels.map (fun lab => fmtOfLabel (script
      (some ⟨some rCol, some sCol, some eCol⟩)
      (some ⟨true, rows⟩)).1 lab) =
      [some (.fixed 4, false), some (.fixed 4, false),
       some (.fixed 4, false), some (.fixed 4, false),
       some (.fixed 4, false), some (.fixed 4, false),
       some (.fixed 4, false)] := by
  rw [script_complete_eq rCol sCol eCol rows sv hext]
  constructor <;>
    simp [errorLabels, speedupLabels, fmtOfLabel, List.findSome?]

/-- Witness for amended claim C4 at the end-to-end scenario inputs. -/
theorem c4_formats_amended_witness :
    extractStats c1Stats.rows = some ⟨31/25, 9/10, 2, 3/125, 1/100, 1/20, 5⟩ ∧
    (errorLabels.map (fun lab => fmtOfLabel (script
      (some ⟨some [1, 2, 3, 4, 5], some c1Speedup, some c1Error⟩)
      (some ⟨true, c1Stats.rows⟩)).1 lab) =
      [some (.general, false), some (.general, false),
       some (.general, false), some (.general, false),
       some (.fixed 6, true), some (.fixed 6, true),
       some (.fixed 6, true)] ∧
    speedupLabels.map (fun lab => fmtOfLabel (script
      (some ⟨some [1, 2, 3, 4, 5], some c1Speedup, some c1Error⟩)
      (some ⟨true, c1Stats.rows⟩)).1 lab) =
      [some (.fixed 4, false), some (.fixed 4, false),
       some (.fixed 4, false), some (.fixed 4, false),
       some (.fixed 4, false), some (.fixed 4, false),
       some (.fixed 4, false)]) :=
  ⟨c1_extract,
   c4_formats_amended [1, 2, 3, 4, 5] c1Speedup c1Error c1Stats.rows
     ⟨31/25, 9/10, 2, 3/125, 1/100, 1/20, 5⟩ c1_extract⟩


/-- Counterexample to claim C8 as stated: a run file lacking the speedup
column together with a fully valid stats file does abort with non-zero
status, but only after printing the header and the three loaded speedup
lines — a partial report is emitted before the failure, contradicting the
claim that the run aborts before any statistic is printed. -/
theorem c8_load_failure_counterexample :
    (script (some ⟨some [1], none, some [(0 : ℚ)]⟩) (some c1Stats)).2 =
      true ∧
    (script (some ⟨some [1], none, some [(0 : ℚ)]⟩) (some c1Stats)).1 ≠
      [] := by
  have ht : script (some ⟨some [1], none, some [(0 : ℚ)]⟩) (some c1Stats) =
      ([.header 5,
        .value ("Average speedup") .loaded (.fixed 4) false (some (31/25)),
        .value ("Minimum speedup") .loaded (.fixed 4) false (some (9/10)),
        .value ("Maximum speedup") .loaded (.fixed 4) false (some 2)],
       true) := by
    rw [script.eq_def]
    simp only [c1_extract, show c1Stats.hasCols = true from rfl, if_true]
  rw [ht]
  exact ⟨rfl, by simp⟩

/-- Claim C8 amended: a missing or unreadable input file, a stats file
without the metric and value columns, or a stats file whose rows lack a
required metric all abort with non-zero status before anything is printed;
but a run file lacking the speedup column aborts only at its first access,
after the header and the three loaded speedup lines have been printed, so
a partial report is emitted; in every case the error flag is set. -/
theorem c8_load_failures_amended (sfO : Option StatsTable)
    (rfO : Option RunTable) (rCol : List Int) (spO eO : Option (List ℚ))
    (rows : List (String × ℚ)) (sv : StatsVals) (st : StatsTable)
    (hext : extractStats rows = some sv)
    (hstc : st.hasCols = true) (hbad : extractStats st.rows = none) :
    script none sfO = ([], true) ∧
    script rfO none = ([], true) ∧
    script (some ⟨some rCol, spO, eO⟩) (some ⟨false, rows⟩) = ([], true) ∧
    script (some ⟨some rCol, spO, eO⟩) (some st) = ([], true) ∧
    script (some ⟨some rCol, none, eO⟩) (some ⟨true, rows⟩) =
      ([.header sv.num_runs,
        .value ("Average speedup") .loaded (.fixed 4) false
          (some sv.avg_speedup),
        .value ("Minimum speedup") .loaded (.fixed 4) false
          (some sv.min_speedup),
        .value ("Maximum speedup") .loaded (.fixed 4) false
          (some sv.max_speedup)],
       true) := by
  refine ⟨rfl, ?_, rfl, ?_, ?_⟩
  · cases rfO <;> rfl
  · rw [script.eq_def]
    simp only [hstc, hbad, if_true]
  · rw [script.eq_def]
    simp only [hext, if_true]

/-- Witness for amended claim C8: stats rows from the end-to-end scenario,
an empty stats table as the key-missing case, and a run file without the
speedup column. -/
theorem c8_load_failures_amended_witness :
    extractStats c1Stats.rows =
      some ⟨31/25, 9/10, 2, 3/125, 1/100, 1/20, 5⟩ ∧
    (⟨true, []⟩ : StatsTable).hasCols = true ∧
    extractStats (⟨true, []⟩ : StatsTable).rows = none ∧
    (script none (some c1Stats) = ([], true) ∧
     script (some c1Run) none = ([], true) ∧
     script (some ⟨some [1], some [(2 : ℚ)], some [(0 : ℚ)]⟩)
       (some ⟨false, c1Stats.rows⟩) = ([], true) ∧
     script (some ⟨some [1], some [(2 : ℚ)], some [(0 : ℚ)]⟩)
       (some ⟨true, []⟩) = ([], true) ∧
     script (some ⟨some [1], none, some [(0 : ℚ)]⟩)
       (some ⟨true, c1Stats.rows⟩) =
       ([.header 5,
         .value ("Average speedup") .loaded (.fixed 4) false (some (31/25)),
         .value ("Minimum speedup") .loaded (.fixed 4) false (some (9/10)),
         .value ("Maximum speedup") .loaded (.fixed 4) false (some 2)],
        true)) :=
  ⟨c1_extract, rfl, rfl,
   c8_load_failures_amended (some c1Stats) (some c1Run) [1]
     (some [(2 : ℚ)]) (some [(0 : ℚ)]) c1Stats.rows
     ⟨31/25, 9/10, 2, 3/125, 1/100, 1/20, 5⟩ ⟨true, []⟩
     c1_extract rfl rfl⟩

/-- Sum of the 0/1 indicator series equals the over-threshold count. -/
theorem indicator_sum (t : ℚ) (l : List ℚ) :
    (indicator l t).sum = (countGT l t : ℚ) := by
  induction l with
  | nil => simp [indicator, countGT]
  | cons x xs ih =>
    have hi : (indicator (x :: xs) t).sum =
        (if t < x then (1 : ℚ) else 0) + (indicator xs t).sum := rfl
    have hc : countGT (x :: xs) t =
        if t < x then countGT xs t + 1 else countGT xs t := by
      by_cases h : t < x
      · rw [if_pos h]
        simp [countGT, List.filter_cons, h]
      · rw [if_neg h]
        simp [countGT, List.filter_cons, h]
    rw [hi, hc, ih]
    by_cases h : t < x
    · rw [if_pos h, if_pos h]
      push_cast
      ring
    · rw [if_neg h, if_neg h]
      ring

/-- Claim C5: for any nonempty speedup column, the over-1.0 count and the
printed percentage are internally consistent: the percentage is the mean
of the 0/1 indicator times 100, and count divided by row count equals the
percentage divided by 100. -/
theorem c5_count_percentage_consistent (l : List ℚ) (h : l ≠ []) :
    ∃ m : ℚ, meanQ (indicator l 1) = some m ∧
      (countGT l 1 : ℚ) / (l.length : ℚ) = (m * 100) / 100 := by
  have hne : (indicator l 1).isEmpty = false := by
    cases l with
    | nil => exact absurd rfl h
    | cons x xs => rfl
  refine ⟨(indicator l 1).sum / ((indicator l 1).length : ℚ), ?_, ?_⟩
  · simp only [meanQ, hne, Bool.false_eq_true, if_false]
  · rw [indicator_sum, show (indicator l 1).length = l.length from by
      simp [indicator], mul_div_assoc]
    norm_num

/-- Witness for claim C5 at the end-to-end speedup column: count 3 of 5,
mean 3/5, percentage 60. -/
theorem c5_count_percentage_consistent_witness :
    c1Speedup ≠ [] ∧
    ∃ m : ℚ, meanQ (indicator c1Speedup 1) = some m ∧
      (countGT c1Speedup 1 : ℚ) / (c1Speedup.length : ℚ) =
        (m * 100) / 100 :=
  ⟨by simp [c1Speedup], c5_count_percentage_consistent c1Speedup
    (by simp [c1Speedup])⟩


/-- Scalar multiples factor out of a mapped sum. -/
theorem sum_map_mul_left (c : ℚ) (f : ℚ → ℚ) (l : List ℚ) :
    (l.map (fun x => c * f x)).sum = c * (l.map f).sum := by
  induction l with
  | nil => simp
  | cons x xs ih =>
    simp [ih]
    ring

/-- Sum of an affinely transformed column. -/
theorem sum_map_affine (a b : ℚ) (l : List ℚ) :
    (l.map (fun x => a - b * x)).sum = (l.length : ℚ) * a - b * l.sum := by
  induction l with
  | nil => simp
  | cons x xs ih =>
    simp [ih]
    ring

/-- Mean of an affinely transformed column. -/
theorem mu_map_affine (a b : ℚ) (l : List ℚ) (h : l ≠ []) :
    mu (l.map (fun x => a - b * x)) = a - b * mu l := by
  have hl : (l.length : ℚ) ≠ 0 :=
    Nat.cast_ne_zero.mpr (Nat.pos_iff_ne_zero.mp (List.length_pos.mpr h))
  rw [mu, mu, List.length_map, sum_map_affine]
  field_simp
  ring

/-- Zipping a column with a mapped copy of itself pairs entries pointwise. -/
theorem zip_map_self (f : ℚ → ℚ) (l : List ℚ) :
    l.zip (l.map f) = l.map (fun x => (x, f x)) := by
  induction l with
  | nil => rfl
  | cons x xs ih => simp [ih]

/-- Co-deviation sum of a column against an anti-correlated copy. -/
theorem sxy_anti (a b : ℚ) (l : List ℚ) (h : l ≠ []) :
    sxy l (l.map (fun x => a - b * x)) = -b * sxx l := by
  rw [sxy, sxx, zip_map_self, List.map_map, mu_map_affine a b l h]
  have he : ((fun p : ℚ × ℚ => (p.1 - mu l) * (p.2 - (a - b * mu l))) ∘
      (fun x => (x, a - b * x))) = fun x => -b * ((x - mu l) ^ 2) := by
    funext x
    simp [Function.comp]
    ring
  rw [he, sum_map_mul_left]

/-- Squared-deviation sum of an anti-correlated copy. -/
theorem sxx_map_affine (a b : ℚ) (l : List ℚ) (h : l ≠ []) :
    sxx (l.map (fun x => a - b * x)) = b ^ 2 * sxx l := by
  rw [sxx, sxx, List.map_map, mu_map_affine a b l h]
  have he : ((fun y => (y - (a - b * mu l)) ^ 2) ∘ (fun x => a - b * x)) =
      fun x => b ^ 2 * ((x - mu l) ^ 2) := by
    funext x
    simp [Function.comp]
    ring
  rw [he, sum_map_mul_left]

/-- Squared-deviation sums are nonnegative. -/
theorem sxx_nonneg (l : List ℚ) : 0 ≤ sxx l := by
  apply List.sum_nonneg
  intro x hx
  obtain ⟨y, _, rfl⟩ := List.mem_map.mp hx
  positivity

/-- Claim C6: the Pearson correlation of a column with a perfectly
anti-correlated copy (an affine image with negative slope, nonconstant
data) is exactly -1, and the correlation of two nonconstant columns with
zero covariance is exactly 0. -/
theorem c6_correlation (xs zs ws : List ℚ) (a b : ℚ) (hb : 0 < b)
    (hvar : sxx xs ≠ 0) (hcov : sxy zs ws = 0) (hvz : sxx zs ≠ 0)
    (hvw : sxx ws ≠ 0) :
    corr xs (xs.map (fun x => a - b * x)) = -1 ∧ corr zs ws = 0 := by
  have hxs : xs ≠ [] := by
    rintro rfl
    simp [sxx] at hvar
  constructor
  · rw [corr, sxy_anti a b xs hxs, sxx_map_affine a b xs hxs]
    have hS0 : (0 : ℝ) < ((sxx xs : ℚ) : ℝ) := by
      have h1 : (0 : ℚ) ≤ sxx xs := sxx_nonneg xs
      have h2 : ((sxx xs : ℚ) : ℝ) ≠ 0 := by exact_mod_cast hvar
      exact lt_of_le_of_ne (by exact_mod_cast h1) (Ne.symm h2)
    have hb2 : (0 : ℝ) < (b : ℝ) := by exact_mod_cast hb
    rw [show ((b ^ 2 * sxx xs : ℚ) : ℝ) = ((b : ℝ)) ^ 2 * ((sxx xs : ℚ) : ℝ)
      from by push_cast; ring]
    rw [Real.sqrt_mul (by positivity) ((sxx xs : ℚ) : ℝ), Real.sqrt_sq hb2.le]
    rw [show ((-b * sxx xs : ℚ) : ℝ) = -((b : ℝ) * ((sxx xs : ℚ) : ℝ))
      from by push_cast; ring]
    rw [show Real.sqrt ((sxx xs : ℚ) : ℝ) *
        ((b : ℝ) * Real.sqrt ((sxx xs : ℚ) : ℝ)) =
        (b : ℝ) * (Real.sqrt ((sxx xs : ℚ) : ℝ) *
          Real.sqrt ((sxx xs : ℚ) : ℝ)) from by ring]
    rw [Real.mul_self_sqrt hS0.le, neg_div, div_self (by positivity)]
  · rw [corr, hcov]
    push_cast
    simp

/-- Witness for claim C6: the column 1, 2, 3 against its anti-correlated
image under x maps to 4 - x, and against 1, 2, 1 which has zero
covariance with it. -/
theorem c6_correlation_witness :
    ((0 : ℚ) < 1) ∧ sxx [(1 : ℚ), 2, 3] ≠ 0 ∧
    sxy [(1 : ℚ), 2, 3] [(1 : ℚ), 2, 1] = 0 ∧ sxx [(1 : ℚ), 2, 1] ≠ 0 ∧
    (corr [(1 : ℚ), 2, 3] ([(1 : ℚ), 2, 3].map (fun x => 4 - 1 * x)) = -1 ∧
     corr [(1 : ℚ), 2, 3] [(1 : ℚ), 2, 1] = 0) :=
  ⟨by norm_num, by norm_num [sxx, mu], by norm_num [sxy, mu],
   by norm_num [sxx, mu],
   c6_correlation [(1 : ℚ), 2, 3] [(1 : ℚ), 2, 3] [(1 : ℚ), 2, 1] 4 1
     (by norm_num) (by norm_num [sxx, mu]) (by norm_num [sxy, mu])
     (by norm_num [sxx, mu]) (by norm_num [sxx, mu])⟩

end PlotSpeedup
